import Mathlib

/-!
# Verification of the Survey Form Builder core logic

Shallow embedding of the permission-aware visibility, statistics,
creation-check and response-ingestion logic of the surveys app
(`surveys/models.py`, `surveys/serializers.py`, `surveys/views.py`).

The relational store is modelled as lists of rows; Django querysets become
list filters, `order_by` becomes `List.insertionSort`, `get_object_or_404`
becomes `Option`/`Except`, and fresh primary keys (uuid4 in the source) are
modelled by a store counter.  Python float division in the stats action is
modelled by exact rational arithmetic.
-/

namespace SurveyApp

/-- The resolved request actor.  `anonymous` models Django's
`AnonymousUser`, whose `is_authenticated` is `False` and whose
`is_superuser` is hard-wired to `False`. -/
inductive Actor where
  | anonymous
  | user (id : Nat) (su : Bool)
deriving DecidableEq, Repr

def Actor.is_authenticated : Actor → Bool
  | .anonymous => false
  | .user _ _ => true

def Actor.is_superuser : Actor → Bool
  | .anonymous => false
  | .user _ su => su

/-- The primary key of the actor, `none` for `AnonymousUser` (whose `id`
is `None` in Django, hence never equal to a real creator). -/
def Actor.uid : Actor → Option Nat
  | .anonymous => none
  | .user i _ => some i

/-- `surveys/models.py` `Survey`: id, title, description, creator FK,
created/updated timestamps, is_active flag. -/
structure Survey where
  id : Nat
  title : String
  description : Option String
  creator : Nat
  created_at : Nat
  is_active : Bool
deriving DecidableEq, Repr

/-- `surveys/models.py` `Question`. -/
structure Question where
  id : Nat
  survey : Nat
  text : String
  question_type : String
  required : Bool
  order : Int
deriving DecidableEq, Repr

/-- `surveys/models.py` `QuestionOption`. -/
structure QuestionOption where
  id : Nat
  question : Nat
  text : String
  order : Int
deriving DecidableEq, Repr

/-- `surveys/models.py` `Response`. -/
structure SurveyResponse where
  id : Nat
  survey : Nat
  respondent_email : Option String
  ip_address : Option String
  created_at : Nat
deriving DecidableEq, Repr

/-- `surveys/models.py` `Answer`; `selected_options` is the M2M relation. -/
structure Answer where
  id : Nat
  response : Nat
  question : Nat
  text_answer : Option String
  selected_options : List Nat
deriving DecidableEq, Repr

/-- The relational store: one row list per model, plus a fresh-key counter
(uuid4 in the source) and a clock (for `auto_now_add` timestamps). -/
structure Store where
  surveys : List Survey
  questions : List Question
  options : List QuestionOption
  responses : List SurveyResponse
  answers : List Answer
  next_id : Nat
  now : Nat
deriving DecidableEq, Repr

/-- The DRF viewset actions on `SurveyViewSet` (`patch` stands for the
PATCH partial update action). -/
inductive SurveyAction where
  | list | retrieve | create | update | patch | destroy | stats
deriving DecidableEq, Repr

/-- `order_by('-created_at')` on surveys: newest first. -/
def createdDescS (a b : Survey) : Prop := b.created_at ≤ a.created_at

instance : DecidableRel createdDescS := fun _ _ => Nat.decLe _ _

instance : IsTotal Survey createdDescS := ⟨fun a b => Nat.le_total b.created_at a.created_at⟩

instance : IsTrans Survey createdDescS := ⟨fun _ _ _ h h2 => Nat.le_trans h2 h⟩

/-- `order_by('-created_at')` on responses. -/
def createdDescR (a b : SurveyResponse) : Prop := b.created_at ≤ a.created_at

instance : DecidableRel createdDescR := fun _ _ => Nat.decLe _ _

instance : IsTotal SurveyResponse createdDescR := ⟨fun a b => Nat.le_total b.created_at a.created_at⟩

instance : IsTrans SurveyResponse createdDescR := ⟨fun _ _ _ h h2 => Nat.le_trans h2 h⟩

/-- `order_by('order')` on questions. -/
def orderAscQ (a b : Question) : Prop := a.order ≤ b.order

instance : DecidableRel orderAscQ := fun _ _ => Int.decLe _ _

/-- `order_by('order')` on options. -/
def orderAscO (a b : QuestionOption) : Prop := a.order ≤ b.order

instance : DecidableRel orderAscO := fun _ _ => Int.decLe _ _

/-- `SurveyViewSet.get_permissions` (`views.py` lines 37-45): `list` and
`retrieve` allow anyone; every other action requires an authenticated
actor (`IsAuthenticated`; `IsCreatorOrReadOnly` is object-level and is
checked separately). -/
def surveyActionPermitted (a : Actor) (act : SurveyAction) : Bool :=
  match act with
  | .list => true
  | .retrieve => true
  | _ => a.is_authenticated

/-- `SurveyViewSet.get_queryset` (`views.py` lines 47-68), translated
branch for branch:
list → active surveys; authenticated superuser → all; authenticated
retrieve → active or own; authenticated other → own; anonymous → active. -/
def SurveyViewSet.get_queryset (store : Store) (user : Actor) (action : SurveyAction) : List Survey :=
  if action = .list then
    (store.surveys.filter (fun s => s.is_active)).insertionSort createdDescS
  else if user.is_authenticated then
    if user.is_superuser then
      store.surveys.insertionSort createdDescS
    else if action = .retrieve then
      (store.surveys.filter (fun s => s.is_active || decide (user.uid = some s.creator))).insertionSort createdDescS
    else
      (store.surveys.filter (fun s => decide (user.uid = some s.creator))).insertionSort createdDescS
  else
    (store.surveys.filter (fun s => s.is_active)).insertionSort createdDescS

/-- DRF `get_object` for a detail action on `SurveyViewSet`: look the pk up
inside the narrowed queryset; `none` models the `Http404` raised by
`get_object_or_404`.  (`check_object_permissions` runs afterwards, but
`stats` is a GET, a `SAFE_METHOD`, so `IsCreatorOrReadOnly` always allows
it and is omitted here.) -/
def SurveyViewSet.get_object (store : Store) (user : Actor) (action : SurveyAction) (pk : Nat) : Option Survey :=
  (SurveyViewSet.get_queryset store user action).find? (fun s => s.id = pk)

/-- One element of the `question_stats` list built by the stats action. -/
structure QuestionStat where
  id : Nat
  text : String
  qtype : String
  answers : Nat
  completion_rate : ℚ
deriving DecidableEq, Repr

/-- The survey of the response row an answer points at, for the
`response__survey=survey` join in the stats action. -/
def answerResponseSurvey (store : Store) (a : Answer) : Option Nat :=
  (store.responses.find? (fun r => r.id = a.response)).map (fun r => r.survey)

/-- `Answer.objects.filter(question=question, response__survey=survey).count()`
(`views.py` lines 89-92). -/
def answerCountFor (store : Store) (surveyId questionId : Nat) : Nat :=
  (store.answers.filter
    (fun a => a.question = questionId && answerResponseSurvey store a = some surveyId)).length

/-- The aggregation body of `SurveyViewSet.stats` (`views.py` lines 82-109):
total response count plus, per question of the survey, its answer count and
completion rate.  Python's float division is modelled by `ℚ`; the
`if response_count > 0` guard is the source's division-by-zero guard. -/
def SurveyViewSet.computeStats (store : Store) (survey : Survey) : Nat × List QuestionStat :=
  let response_count := (store.responses.filter (fun r => r.survey = survey.id)).length
  let questions := store.questions.filter (fun q => q.survey = survey.id)
  let question_stats := questions.map (fun q =>
    let answer_count := answerCountFor store survey.id q.id
    let completion_rate : ℚ :=
      if response_count > 0 then ((answer_count : ℚ) / (response_count : ℚ)) * 100 else 0
    { id := q.id, text := q.text, qtype := q.question_type,
      answers := answer_count, completion_rate := completion_rate })
  (response_count, question_stats)

/-- Outcome of the stats endpoint.  `unauthorized` is the `IsAuthenticated`
permission rejection, `notFound` the `Http404` from `get_object`,
`forbidden` the inline 403 branch of `views.py` lines 76-80. -/
inductive StatsResult where
  | unauthorized
  | notFound
  | forbidden
  | ok (total : Nat) (questions : List QuestionStat)
deriving DecidableEq, Repr

/-- The full `stats` detail action (`views.py` lines 70-109) as dispatched
by DRF: permission check, then `get_object` (which uses `get_queryset`
with `self.action = stats`), then the inline creator/superuser check, then
aggregation. -/
def SurveyViewSet.stats (store : Store) (user : Actor) (pk : Nat) : StatsResult :=
  if ¬ surveyActionPermitted user .stats then .unauthorized
  else
    match SurveyViewSet.get_object store user .stats pk with
    | none => .notFound
    | some survey =>
      if user.is_authenticated && (!decide (user.uid = some survey.creator) && !user.is_superuser) then
        .forbidden
      else
        let res := SurveyViewSet.computeStats store survey
        .ok res.1 res.2

/-- `QuestionViewSet.get_queryset` (`views.py` lines 129-134): filter by
`survey_id` when the query parameter is given (ordered by `order`), else
all questions unfiltered. -/
def QuestionViewSet.get_queryset (store : Store) (survey_id : Option Nat) : List Question :=
  match survey_id with
  | some sid => (store.questions.filter (fun q => q.survey = sid)).insertionSort orderAscQ
  | none => store.questions

/-- `QuestionOptionViewSet.get_queryset` (`views.py` lines 185-190). -/
def QuestionOptionViewSet.get_queryset (store : Store) (question_id : Option Nat) : List QuestionOption :=
  match question_id with
  | some qid => (store.options.filter (fun o => o.question = qid)).insertionSort orderAscO
  | none => store.options

/-- `ResponseViewSet.get_queryset` (`views.py` lines 241-260).
`Except Unit` carries the `Http404` that `get_object_or_404(Survey, ...)`
raises when `survey_id` names no survey; every other branch returns a
(possibly empty) list. -/
def ResponseViewSet.get_queryset (store : Store) (user : Actor) (survey_id : Option Nat) :
    Except Unit (List SurveyResponse) :=
  if ¬ user.is_authenticated then .ok []
  else
    match survey_id with
    | some sid =>
      match store.surveys.find? (fun s => s.id = sid) with
      | none => .error ()
      | some survey =>
        if ¬ (user.uid = some survey.creator) ∧ ¬ user.is_superuser then .ok []
        else .ok ((store.responses.filter (fun r => r.survey = sid)).insertionSort createdDescR)
    | none =>
      if user.is_superuser then .ok (store.responses.insertionSort createdDescR)
      else
        .ok ((store.responses.filter (fun r =>
          match store.surveys.find? (fun s => s.id = r.survey) with
          | some s => user.uid = some s.creator
          | none => false)).insertionSort createdDescR)

/-- The `QUESTION_TYPES` choices of `surveys/models.py`. -/
def QUESTION_TYPES : List String :=
  ["short_text", "long_text", "single_choice", "multiple_choice", "rating", "date"]

/-- Error kinds surfaced by the creation endpoints (`views.py`):
a 400 with a field-required message, a 404 for a missing parent, the 403
ownership rejection, and serializer-level validation failure. -/
inductive CreateError where
  | fieldRequired (field : String)
  | notFound (field : String)
  | forbidden
  | validationFailed
deriving DecidableEq, Repr

/-- Outcome of a creation endpoint: `unauthorized` is the
`IsAuthenticated` permission rejection happening before the view body. -/
inductive CreateOutcome where
  | unauthorized
  | err (e : CreateError)
  | created (id : Nat)
deriving DecidableEq, Repr

/-- Raw creation input for a question; `survey = none` models a request
body without the `survey` key (`request.data.get('survey')` is `None`). -/
structure QuestionPayload where
  survey : Option Nat
  text : String
  question_type : String
  required : Option Bool
  order : Option Int
deriving DecidableEq, Repr

/-- `QuestionViewSet.create` (`views.py` lines 136-165): presence of the
`survey` field, then existence of the survey, then the ownership check,
then serializer validation (`question_type` choices, `text` max length)
and save.  The `IsAuthenticated` permission (lines 119-127) runs first. -/
def QuestionViewSet.create (store : Store) (user : Actor) (data : QuestionPayload) :
    Store × CreateOutcome :=
  if ¬ user.is_authenticated then (store, .unauthorized)
  else
    match data.survey with
    | none => (store, .err (.fieldRequired "survey"))
    | some sid =>
      match store.surveys.find? (fun s => s.id = sid) with
      | none => (store, .err (.notFound "survey"))
      | some survey =>
        if user.is_authenticated && (!decide (user.uid = some survey.creator) && !user.is_superuser) then
          (store, .err .forbidden)
        else if data.question_type ∈ QUESTION_TYPES ∧ data.text.length ≤ 500 then
          let q : Question :=
            { id := store.next_id, survey := sid, text := data.text,
              question_type := data.question_type, required := data.required.getD false,
              order := data.order.getD 0 }
          ({ store with questions := store.questions ++ [q], next_id := store.next_id + 1 },
            .created q.id)
        else (store, .err .validationFailed)

/-- Raw creation input for a question option. -/
structure OptionPayload where
  question : Option Nat
  text : String
  order : Option Int
deriving DecidableEq, Repr

/-- `QuestionOptionViewSet.create` (`views.py` lines 192-221): same fixed
check order as question creation, against the option's parent question and
its owning survey. -/
def QuestionOptionViewSet.create (store : Store) (user : Actor) (data : OptionPayload) :
    Store × CreateOutcome :=
  if ¬ user.is_authenticated then (store, .unauthorized)
  else
    match data.question with
    | none => (store, .err (.fieldRequired "question"))
    | some qid =>
      match store.questions.find? (fun q => q.id = qid) with
      | none => (store, .err (.notFound "question"))
      | some question =>
        match store.surveys.find? (fun s => s.id = question.survey) with
        | none => (store, .err (.notFound "question"))
        | some survey =>
          if user.is_authenticated && (!decide (user.uid = some survey.creator) && !user.is_superuser) then
            (store, .err .forbidden)
          else if data.text.length ≤ 255 then
            let o : QuestionOption :=
              { id := store.next_id, question := qid, text := data.text,
                order := data.order.getD 0 }
            ({ store with options := store.options ++ [o], next_id := store.next_id + 1 },
              .created o.id)
          else (store, .err .validationFailed)

/-- Helper for `pySplitComma`: walk the characters, cutting at commas. -/
def splitCommaAux : List Char → List Char → List (List Char)
  | [], acc => [acc.reverse]
  | c :: rest, acc =>
    if c = ',' then acc.reverse :: splitCommaAux rest []
    else splitCommaAux rest (c :: acc)

/-- Python's `s.split(',')`: every comma is a cut point, empty pieces kept,
so the result always has at least one element. -/
def pySplitComma (s : String) : List String :=
  (splitCommaAux s.data []).map (fun cs => String.mk cs)

/-- The client-IP derivation of `ResponseViewSet.create` (`views.py` lines
264-269), `x_forwarded_for.split(',')[0]` being `(pySplitComma h).headD`.
Python's `if x_forwarded_for:` is a truthiness test, so an empty header
string falls through to `REMOTE_ADDR` exactly like a missing header;
otherwise the first comma-separated token is taken. -/
def deriveClientIp (x_forwarded_for : Option String) (remote_addr : String) : String :=
  match x_forwarded_for with
  | some h => if h ≠ "" then (pySplitComma h).headD "" else remote_addr
  | none => remote_addr

/-- Raw nested answer input of a response submission. -/
structure AnswerPayload where
  question : Nat
  text_answer : Option String
  selected_options : List Nat
deriving DecidableEq, Repr

/-- Raw response submission body (`ResponseSerializer` fields). -/
structure ResponsePayload where
  survey : Nat
  respondent_email : Option String
  ip_address : Option String
  answers : List AnswerPayload
deriving DecidableEq, Repr

/-- DRF validation of `ResponseSerializer`: the survey and every
referenced question and option must exist (`PrimaryKeyRelatedField`), the
optional email and the ip must pass the framework field validators,
modelled by the parameters `emailOk` and `ipOk` (external collaborators).
Returns the per-field error list; empty means valid.  Note the source
never checks that a selected option belongs to the answered question. -/
def validateResponsePayload (emailOk ipOk : String → Bool) (store : Store) (p : ResponsePayload) :
    List (String × String) :=
  (if store.surveys.any (fun s => s.id = p.survey) then [] else [("survey", "object does not exist")])
  ++ (match p.respondent_email with
      | some e => if emailOk e then [] else [("respondent_email", "invalid email")]
      | none => [])
  ++ (match p.ip_address with
      | some ip => if ipOk ip then [] else [("ip_address", "invalid address")]
      | none => [])
  ++ (p.answers.map (fun a =>
      (if store.questions.any (fun q => q.id = a.question) then []
       else [("question", "object does not exist")])
      ++ (a.selected_options.filter (fun oid => !store.options.any (fun o => o.id = oid))).map
          (fun _ => ("selected_options", "object does not exist")))).flatten

/-- The answer-creation loop of `ResponseSerializer.create`
(`serializers.py` lines 60-63): one `Answer` row per nested answer, linked
to the fresh response, with `.set()` set semantics on the M2M selection
(duplicates dropped, modelled by `dedup`). -/
def addAnswers (rid : Nat) (ans : List AnswerPayload) (st : Store) : Store :=
  ans.foldl (fun st a =>
    let row : Answer :=
      { id := st.next_id, response := rid, question := a.question,
        text_answer := a.text_answer, selected_options := a.selected_options.dedup }
    { st with answers := st.answers ++ [row], next_id := st.next_id + 1 }) st

/-- `ResponseSerializer.create` (`serializers.py` lines 56-65): create the
response row, then the answer rows.  Runs only on an already validated
payload. -/
def ResponseSerializer.create (store : Store) (p : ResponsePayload) : Store × SurveyResponse :=
  let resp : SurveyResponse :=
    { id := store.next_id, survey := p.survey,
      respondent_email := p.respondent_email, ip_address := p.ip_address, created_at := store.now }
  let st0 := { store with responses := store.responses ++ [resp], next_id := store.next_id + 1 }
  (addAnswers resp.id p.answers st0, resp)

/-- `ResponseViewSet.create` (`views.py` lines 262-280): derive the client
ip, overwrite the payload's `ip_address` with it, then run the standard
DRF create (validate, then `ResponseSerializer.create`).  On a validation
failure the store is returned untouched together with the error list. -/
def ResponseViewSet.create (emailOk ipOk : String → Bool) (store : Store)
    (x_forwarded_for : Option String) (remote_addr : String) (p : ResponsePayload) :
    Store × Except (List (String × String)) SurveyResponse :=
  let ip := deriveClientIp x_forwarded_for remote_addr
  let pInj := { p with ip_address := some ip }
  let errs := validateResponsePayload emailOk ipOk store pInj
  if errs = [] then
    let res := ResponseSerializer.create store pInj
    (res.1, .ok res.2)
  else (store, .error errs)

/-- Deleting a survey with the `on_delete=models.CASCADE` declarations of
`surveys/models.py`: its questions, their options, its responses, the
answers of those responses and of those questions all go; surviving
answers also lose M2M links to deleted options (the join rows cascade). -/
def deleteSurvey (store : Store) (sid : Nat) : Store :=
  let deadQ := (store.questions.filter (fun q => q.survey = sid)).map (fun q => q.id)
  let deadR := (store.responses.filter (fun r => r.survey = sid)).map (fun r => r.id)
  let deadO := (store.options.filter (fun o => o.question ∈ deadQ)).map (fun o => o.id)
  { store with
    surveys := store.surveys.filter (fun s => decide (s.id ≠ sid))
    questions := store.questions.filter (fun q => decide (q.survey ≠ sid))
    options := store.options.filter (fun o => decide (o.question ∉ deadQ))
    responses := store.responses.filter (fun r => decide (r.survey ≠ sid))
    answers := (store.answers.filter (fun a => decide (a.response ∉ deadR) && decide (a.question ∉ deadQ))).map
      (fun a => { a with selected_options := a.selected_options.filter (fun oid => decide (oid ∉ deadO)) }) }

/-- Raw survey creation body; `creator` is whatever the client sent for
the read-only creator field. -/
structure SurveyPayload where
  title : String
  description : Option String
  creator : Option Nat
  is_active : Option Bool
deriving DecidableEq, Repr

/-- Outcome of survey creation. -/
inductive SurveyCreateResult where
  | unauthorized
  | invalid
  | created (s : Survey)
deriving DecidableEq, Repr

/-- Survey creation (`serializers.py` lines 21-40 plus the viewset
permission): `creator` is declared `read_only`, so the client value never
reaches `validated_data`; `SurveySerializer.create` overwrites the creator
with the requesting user.  The `IsAuthenticated` permission rejects
anonymous actors before the serializer runs. -/
def SurveySerializer.create (store : Store) (user : Actor) (p : SurveyPayload) :
    Store × SurveyCreateResult :=
  match user with
  | .anonymous => (store, .unauthorized)
  | .user i _ =>
    if p.title.length ≤ 255 then
      let sv : Survey :=
        { id := store.next_id, title := p.title, description := p.description,
          creator := i, created_at := store.now, is_active := p.is_active.getD true }
      ({ store with surveys := store.surveys ++ [sv], next_id := store.next_id + 1 }, .created sv)
    else (store, .invalid)

/-! ## Concrete fixtures used to instantiate the theorems -/

/-- An active survey owned by user 10. -/
def exSurvey1 : Survey :=
  { id := 1, title := "s", description := none, creator := 10, created_at := 5, is_active := true }

/-- An inactive survey owned by user 20. -/
def exSurvey2 : Survey :=
  { id := 2, title := "t", description := none, creator := 20, created_at := 3, is_active := false }

/-- A small populated store: two surveys, two questions and one answered
response on survey 1. -/
def exStore : Store :=
  { surveys := [exSurvey1, exSurvey2],
    questions := [{ id := 1, survey := 1, text := "q1", question_type := "short_text", required := false, order := 0 },
                  { id := 2, survey := 1, text := "q2", question_type := "rating", required := false, order := 1 }],
    options := [{ id := 1, question := 1, text := "o1", order := 0 }],
    responses := [{ id := 1, survey := 1, respondent_email := none, ip_address := none, created_at := 7 },
                  { id := 2, survey := 1, respondent_email := none, ip_address := none, created_at := 8 }],
    answers := [{ id := 1, response := 1, question := 1, text_answer := some "hi", selected_options := [1] }],
    next_id := 100, now := 50 }

/-- A store like `exStore` but with no responses and no answers. -/
def exStoreNoResponses : Store :=
  { exStore with responses := [], answers := [] }

/-- Concrete stand-in for the framework email/ip format validators. -/
def allOk : String → Bool := fun _ => true

/-! ## Theorems -/

/-- C1: for every survey S and actor A, S is returned by the Survey
visibility resolution for the retrieve action iff S is stored and is
active, or its creator is A, or A is a superuser; and the anonymous actor
never satisfies the creator or superuser disjuncts. -/
theorem retrieve_visibility_iff (store : Store) (S : Survey) (A : Actor) :
    (S ∈ SurveyViewSet.get_queryset store A .retrieve ↔
      S ∈ store.surveys ∧ (S.is_active = true ∨ A.uid = some S.creator ∨ A.is_superuser = true)) ∧
    Actor.anonymous.uid ≠ some S.creator ∧ Actor.anonymous.is_superuser = false := by
  refine ⟨?_, by simp [Actor.uid], rfl⟩
  cases A with
  | anonymous =>
    simp [SurveyViewSet.get_queryset, Actor.is_authenticated, Actor.uid, Actor.is_superuser,
      List.mem_insertionSort, List.mem_filter]
  | user i su =>
    cases su <;>
      simp [SurveyViewSet.get_queryset, Actor.is_authenticated, Actor.uid, Actor.is_superuser,
        List.mem_insertionSort, List.mem_filter]

/-- Closed instance of `retrieve_visibility_iff`: the inactive survey 2 is
visible to its creator for retrieve. -/
theorem retrieve_visibility_iff_witness :
    (exSurvey2 ∈ SurveyViewSet.get_queryset exStore (.user 20 false) .retrieve ↔
      exSurvey2 ∈ exStore.surveys ∧
        (exSurvey2.is_active = true ∨ (Actor.user 20 false).uid = some exSurvey2.creator ∨
          (Actor.user 20 false).is_superuser = true)) ∧
    Actor.anonymous.uid ≠ some exSurvey2.creator ∧ Actor.anonymous.is_superuser = false :=
  retrieve_visibility_iff exStore exSurvey2 (.user 20 false)

/-- C7: for every mutate action (anything other than list and retrieve)
the permission layer rejects anonymous actors before visibility
resolution; for an authenticated non-superuser the resolution returns
exactly the actor's own surveys, and for a superuser all surveys, in both
cases ordered by created timestamp descending. -/
theorem mutate_visibility (store : Store) (uid : Nat) (act : SurveyAction)
    (h1 : act ≠ .list) (h2 : act ≠ .retrieve) :
    surveyActionPermitted .anonymous act = false ∧
    (∀ S : Survey, S ∈ SurveyViewSet.get_queryset store (.user uid false) act ↔
      S ∈ store.surveys ∧ S.creator = uid) ∧
    (SurveyViewSet.get_queryset store (.user uid false) act).Sorted createdDescS ∧
    (∀ S : Survey, S ∈ SurveyViewSet.get_queryset store (.user uid true) act ↔ S ∈ store.surveys) ∧
    (SurveyViewSet.get_queryset store (.user uid true) act).Sorted createdDescS := by
  refine ⟨?_, ?_, ?_, ?_, ?_⟩
  · cases act <;> simp_all [surveyActionPermitted, Actor.is_authenticated]
  · intro S
    simp [SurveyViewSet.get_queryset, h1, h2, Actor.is_authenticated, Actor.is_superuser,
      Actor.uid, List.mem_insertionSort, List.mem_filter, eq_comm]
  · simp only [SurveyViewSet.get_queryset, h1, h2, Actor.is_authenticated, Actor.is_superuser,
      if_false, if_true, Bool.false_eq_true, ite_false, ite_true]
    exact List.sorted_insertionSort createdDescS _
  · intro S
    simp [SurveyViewSet.get_queryset, h1, h2, Actor.is_authenticated, Actor.is_superuser,
      List.mem_insertionSort]
  · simp only [SurveyViewSet.get_queryset, h1, h2, Actor.is_authenticated, Actor.is_superuser,
      if_false, if_true, Bool.false_eq_true, ite_false, ite_true]
    exact List.sorted_insertionSort createdDescS _

/-- Closed instance of `mutate_visibility` at the destroy action. -/
theorem mutate_visibility_witness :
    surveyActionPermitted .anonymous .destroy = false ∧
    (exSurvey1 ∈ SurveyViewSet.get_queryset exStore (.user 10 false) .destroy ↔
      exSurvey1 ∈ exStore.surveys ∧ exSurvey1.creator = 10) ∧
    (exSurvey1 ∈ SurveyViewSet.get_queryset exStore (.user 10 true) .destroy ↔
      exSurvey1 ∈ exStore.surveys) :=
  ⟨(mutate_visibility exStore 10 .destroy (by decide) (by decide)).1,
   (mutate_visibility exStore 10 .destroy (by decide) (by decide)).2.1 exSurvey1,
   (mutate_visibility exStore 10 .destroy (by decide) (by decide)).2.2.2.1 exSurvey1⟩

/-- The total of `computeStats` is the response count of the survey. -/
theorem computeStats_fst (store : Store) (survey : Survey) :
    (SurveyViewSet.computeStats store survey).1 =
      (store.responses.filter (fun r => r.survey = survey.id)).length := rfl

/-- The per-question list of `computeStats`, written out. -/
theorem computeStats_snd (store : Store) (survey : Survey) :
    (SurveyViewSet.computeStats store survey).2 =
      (store.questions.filter (fun q => q.survey = survey.id)).map (fun q =>
        { id := q.id, text := q.text, qtype := q.question_type,
          answers := answerCountFor store survey.id q.id,
          completion_rate :=
            if (store.responses.filter (fun r => r.survey = survey.id)).length > 0 then
              ((answerCountFor store survey.id q.id : ℚ) /
                ((store.responses.filter (fun r => r.survey = survey.id)).length : ℚ)) * 100
            else 0 }) := rfl

/-- C2: the stats action emits, for every question of the survey, an entry
whose answer count is the number of answer rows referencing that question
through a response of that survey, and whose completion rate is 0 when the
survey has no responses and (answerCount / totalResponses) × 100
otherwise; with 0 responses every rate is 0 (the `response_count > 0`
guard is the division-by-zero protection). -/
theorem stats_per_question (store : Store) (survey : Survey) :
    (∀ q ∈ store.questions, q.survey = survey.id →
      ({ id := q.id, text := q.text, qtype := q.question_type,
         answers := answerCountFor store survey.id q.id,
         completion_rate :=
           if (SurveyViewSet.computeStats store survey).1 = 0 then 0
           else ((answerCountFor store survey.id q.id : ℚ) /
             ((SurveyViewSet.computeStats store survey).1 : ℚ)) * 100 } : QuestionStat) ∈
        (SurveyViewSet.computeStats store survey).2) ∧
    ((SurveyViewSet.computeStats store survey).1 = 0 →
      ∀ st ∈ (SurveyViewSet.computeStats store survey).2, st.completion_rate = 0) := by
  constructor
  · intro q hq hs
    rw [computeStats_snd, computeStats_fst]
    refine List.mem_map.mpr ⟨q, List.mem_filter.mpr ⟨hq, by simp [hs]⟩, ?_⟩
    rcases Nat.eq_zero_or_pos (store.responses.filter (fun r => r.survey = survey.id)).length
      with h0 | hpos
    · simp [h0]
    · simp [hpos, Nat.pos_iff_ne_zero.mp hpos]
  · intro h0 st hst
    rw [computeStats_fst] at h0
    rw [computeStats_snd] at hst
    obtain ⟨q, _, rfl⟩ := List.mem_map.mp hst
    simp [h0]

/-- Closed instance of `stats_per_question` on the store without
responses: question 1 of survey 1 gets answer count 0 and rate 0. -/
theorem stats_per_question_witness :
    ({ id := 1, text := "q1", qtype := "short_text",
       answers := answerCountFor exStoreNoResponses exSurvey1.id 1,
       completion_rate :=
         if (SurveyViewSet.computeStats exStoreNoResponses exSurvey1).1 = 0 then 0
         else ((answerCountFor exStoreNoResponses exSurvey1.id 1 : ℚ) /
           ((SurveyViewSet.computeStats exStoreNoResponses exSurvey1).1 : ℚ)) * 100 } : QuestionStat) ∈
      (SurveyViewSet.computeStats exStoreNoResponses exSurvey1).2 :=
  (stats_per_question exStoreNoResponses exSurvey1).1
    { id := 1, survey := 1, text := "q1", question_type := "short_text", required := false, order := 0 }
    (by decide) (by decide)

/-- C6 counterexample: user 20 is neither the creator of survey 1 nor a
superuser, yet the stats endpoint yields not-found, not forbidden — the
stats-action queryset (`get_queryset` with a non-retrieve action) already
excludes foreign surveys, so `get_object` raises `Http404` before the
inline 403 branch of `views.py` lines 76-80 can fire. -/
theorem stats_forbidden_counterexample :
    exSurvey1 ∈ exStore.surveys ∧ exSurvey1.id = 1 ∧ exSurvey1.creator ≠ 20 ∧
    (Actor.user 20 false).is_superuser = false ∧
    SurveyViewSet.stats exStore (.user 20 false) 1 ≠ .forbidden ∧
    SurveyViewSet.stats exStore (.user 20 false) 1 = .notFound := by decide

/-- C6 amended: for an authenticated actor who is neither the creator nor
a superuser, the stats operation yields NOT_FOUND (produced by the
visibility narrowing before any aggregation work; the outcome carries no
statistics). -/
theorem stats_nonowner_notfound (store : Store) (uid pk : Nat)
    (h : ∀ s ∈ store.surveys, s.id = pk → s.creator ≠ uid) :
    SurveyViewSet.stats store (.user uid false) pk = .notFound := by
  have hq : SurveyViewSet.get_object store (.user uid false) .stats pk = none := by
    unfold SurveyViewSet.get_object SurveyViewSet.get_queryset
    simp only [Actor.is_authenticated, Actor.is_superuser, Actor.uid]
    rw [List.find?_eq_none]
    intro s hs
    simp only [reduceIte, List.mem_insertionSort, List.mem_filter, reduceCtorEq,
      if_false, Bool.false_eq_true, decide_eq_true_eq, Option.some.injEq] at hs
    simp only [decide_eq_true_eq]
    exact fun hid => h s hs.1 hid hs.2.symm
  unfold SurveyViewSet.stats
  rw [hq]
  simp [surveyActionPermitted, Actor.is_authenticated]

/-- Closed instance of `stats_nonowner_notfound`: user 77 owns nothing in
the store and gets not-found for survey 2. -/
theorem stats_nonowner_notfound_witness :
    SurveyViewSet.stats exStore (.user 77 false) 2 = .notFound :=
  stats_nonowner_notfound exStore 77 2 (by decide)

/-- `addAnswers` only touches the answers table and the key counter: the
responses table is unchanged. -/
theorem addAnswers_responses (rid : Nat) (ans : List AnswerPayload) (st : Store) :
    (addAnswers rid ans st).responses = st.responses := by
  induction ans generalizing st with
  | nil => rfl
  | cons a rest ih =>
    show (addAnswers rid rest _).responses = st.responses
    rw [ih]

/-- An empty response submission against survey 1, carrying a client
supplied ip that must be ignored. -/
def exPayloadEmpty : ResponsePayload :=
  { survey := 1, respondent_email := none, ip_address := some "9.9.9.9", answers := [] }

/-- C3 counterexample: with an X-Forwarded-For header that is present but
empty and peer address 10.0.0.1, the stored ip is 10.0.0.1 and not the
first comma-separated token of the header (the empty string): Python's
`if x_forwarded_for:` truthiness test treats an empty header like a
missing one. -/
theorem ip_stamping_counterexample :
    (ResponseViewSet.create allOk allOk exStore (some "") "10.0.0.1" exPayloadEmpty).2 =
      .ok { id := 100, survey := 1, respondent_email := none,
            ip_address := some "10.0.0.1", created_at := 50 } ∧
    (pySplitComma "").headD "" = "" ∧ ("10.0.0.1" : String) ≠ "" :=
  ⟨rfl, rfl, by decide⟩

/-- C3 amended: the stored response's ip always equals the derived source
address — the first comma-separated token of the forwarded-for header when
that header is present and nonempty, otherwise the direct peer address —
and the client payload's ip field has no influence at all on the
outcome. -/
theorem ip_stamping (emailOk ipOk : String → Bool) (store : Store)
    (xff : Option String) (remote : String) (p : ResponsePayload) :
    (∀ resp, (ResponseViewSet.create emailOk ipOk store xff remote p).2 = .ok resp →
      resp.ip_address = some (deriveClientIp xff remote) ∧
      resp ∈ (ResponseViewSet.create emailOk ipOk store xff remote p).1.responses) ∧
    (∀ s, s ≠ "" → deriveClientIp (some s) remote = (pySplitComma s).headD "") ∧
    deriveClientIp none remote = remote ∧
    deriveClientIp (some "") remote = remote ∧
    (∀ v1 v2 : Option String,
      ResponseViewSet.create emailOk ipOk store xff remote { p with ip_address := v1 } =
      ResponseViewSet.create emailOk ipOk store xff remote { p with ip_address := v2 }) := by
  refine ⟨?_, ?_, rfl, rfl, fun v1 v2 => rfl⟩
  · intro resp hok
    by_cases hv : validateResponsePayload emailOk ipOk store
        { p with ip_address := some (deriveClientIp xff remote) } = []
    · simp only [ResponseViewSet.create, ResponseSerializer.create, hv, ite_true,
        Except.ok.injEq] at hok ⊢
      subst hok
      refine ⟨rfl, ?_⟩
      rw [addAnswers_responses]
      simp
    · simp only [ResponseViewSet.create, hv, ite_false, reduceCtorEq] at hok
  · intro s hs
    simp [deriveClientIp, hs]

/-- Closed instance of `ip_stamping`: a two-hop forwarded-for chain yields
its first token, which is what a successfully stored response carries. -/
theorem ip_stamping_witness :
    deriveClientIp (some "7.7.7.7,8.8.8.8") "1.1.1.1" = (pySplitComma "7.7.7.7,8.8.8.8").headD "" ∧
    ({ id := 100, survey := 1, respondent_email := none, ip_address := some "7.7.7.7",
       created_at := 50 } : SurveyResponse).ip_address =
      some (deriveClientIp (some "7.7.7.7,8.8.8.8") "1.1.1.1") :=
  ⟨(ip_stamping allOk allOk exStore (some "7.7.7.7,8.8.8.8") "1.1.1.1" exPayloadEmpty).2.1
      "7.7.7.7,8.8.8.8" (by decide),
   ((ip_stamping allOk allOk exStore (some "7.7.7.7,8.8.8.8") "1.1.1.1" exPayloadEmpty).1
      { id := 100, survey := 1, respondent_email := none, ip_address := some "7.7.7.7",
        created_at := 50 } (by rfl)).1⟩

/-- C4: response ingestion is all-or-nothing: whenever validation of the
(ip-stamped) payload fails, the endpoint returns the untouched store
together with the per-field error list — no response row and no answer row
is persisted. -/
theorem ingestion_all_or_nothing (emailOk ipOk : String → Bool) (store : Store)
    (xff : Option String) (remote : String) (p : ResponsePayload)
    (h : validateResponsePayload emailOk ipOk store
      { p with ip_address := some (deriveClientIp xff remote) } ≠ []) :
    ResponseViewSet.create emailOk ipOk store xff remote p =
      (store, .error (validateResponsePayload emailOk ipOk store
        { p with ip_address := some (deriveClientIp xff remote) })) := by
  simp [ResponseViewSet.create, h]

/-- A submission with two answers, the second referencing the nonexistent
question 99. -/
def exPayloadBadQuestion : ResponsePayload :=
  { survey := 1, respondent_email := none, ip_address := none,
    answers := [{ question := 1, text_answer := some "ok", selected_options := [] },
                { question := 99, text_answer := none, selected_options := [] }] }

/-- Closed instance of `ingestion_all_or_nothing` on the claim's scenario:
two answers, one with an invalid question reference — the store comes back
unchanged (no orphan response row) with a field error. -/
theorem ingestion_all_or_nothing_witness :
    ResponseViewSet.create allOk allOk exStore none "1.2.3.4" exPayloadBadQuestion =
      (exStore, .error [("question", "object does not exist")]) := by
  rw [ingestion_all_or_nothing allOk allOk exStore none "1.2.3.4" exPayloadBadQuestion (by decide)]
  rfl

/-- C5: question and option creation check in the fixed order
presence → existence → ownership: a missing parent field yields the
field-required error whatever else holds; a present but dangling parent
reference yields not-found; and only with an existing parent is ownership
checked, yielding forbidden for an actor who is neither the owning
survey's creator nor a superuser. -/
theorem creation_check_order (store : Store) (A : Actor) (dq : QuestionPayload)
    (dop : OptionPayload) (hA : A.is_authenticated = true) :
    (dq.survey = none → (QuestionViewSet.create store A dq).2 = .err (.fieldRequired "survey")) ∧
    (∀ sid, dq.survey = some sid → (∀ s ∈ store.surveys, s.id ≠ sid) →
      (QuestionViewSet.create store A dq).2 = .err (.notFound "survey")) ∧
    (∀ sid s, dq.survey = some sid → store.surveys.find? (fun x => x.id = sid) = some s →
      A.uid ≠ some s.creator → A.is_superuser = false →
      (QuestionViewSet.create store A dq).2 = .err .forbidden) ∧
    (dop.question = none →
      (QuestionOptionViewSet.create store A dop).2 = .err (.fieldRequired "question")) ∧
    (∀ qid, dop.question = some qid → (∀ q ∈ store.questions, q.id ≠ qid) →
      (QuestionOptionViewSet.create store A dop).2 = .err (.notFound "question")) ∧
    (∀ qid q s, dop.question = some qid → store.questions.find? (fun x => x.id = qid) = some q →
      store.surveys.find? (fun x => x.id = q.survey) = some s →
      A.uid ≠ some s.creator → A.is_superuser = false →
      (QuestionOptionViewSet.create store A dop).2 = .err .forbidden) := by
  refine ⟨?_, ?_, ?_, ?_, ?_, ?_⟩
  · intro hnone
    simp [QuestionViewSet.create, hA, hnone]
  · intro sid hsid habs
    have hfind : store.surveys.find? (fun x => x.id = sid) = none :=
      List.find?_eq_none.mpr (by simpa using habs)
    simp [QuestionViewSet.create, hA, hsid, hfind]
  · intro sid s hsid hfind huid hsu
    simp [QuestionViewSet.create, hA, hsid, hfind, huid, hsu]
  · intro hnone
    simp [QuestionOptionViewSet.create, hA, hnone]
  · intro qid hqid habs
    have hfind : store.questions.find? (fun x => x.id = qid) = none :=
      List.find?_eq_none.mpr (by simpa using habs)
    simp [QuestionOptionViewSet.create, hA, hqid, hfind]
  · intro qid q s hqid hfq hfs huid hsu
    simp [QuestionOptionViewSet.create, hA, hqid, hfq, hfs, huid, hsu]

/-- Closed instance of `creation_check_order`: missing survey field,
dangling survey reference, and a foreign survey, each at its own error. -/
theorem creation_check_order_witness :
    (QuestionViewSet.create exStore (.user 30 false)
      { survey := none, text := "x", question_type := "short_text",
        required := none, order := none }).2 = .err (.fieldRequired "survey") ∧
    (QuestionViewSet.create exStore (.user 30 false)
      { survey := some 42, text := "x", question_type := "short_text",
        required := none, order := none }).2 = .err (.notFound "survey") ∧
    (QuestionViewSet.create exStore (.user 30 false)
      { survey := some 1, text := "x", question_type := "short_text",
        required := none, order := none }).2 = .err .forbidden :=
  ⟨(creation_check_order exStore (.user 30 false)
      { survey := none, text := "x", question_type := "short_text", required := none, order := none }
      { question := none, text := "y", order := none } rfl).1 rfl,
   (creation_check_order exStore (.user 30 false)
      { survey := some 42, text := "x", question_type := "short_text", required := none, order := none }
      { question := none, text := "y", order := none } rfl).2.1 42 rfl (by decide),
   (creation_check_order exStore (.user 30 false)
      { survey := some 1, text := "x", question_type := "short_text", required := none, order := none }
      { question := none, text := "y", order := none } rfl).2.2.1 1 exSurvey1 rfl (by rfl)
      (by decide) rfl⟩

/-- C8 counterexample: for an authenticated actor and a survey_id naming
no stored survey, the Response visibility resolution signals an error (the
`Http404` of `get_object_or_404`) instead of narrowing. -/
theorem response_visibility_counterexample :
    (∀ s ∈ exStore.surveys, s.id ≠ 99) ∧
    (Actor.user 5 false).is_authenticated = true ∧
    ResponseViewSet.get_queryset exStore (.user 5 false) (some 99) = .error () :=
  ⟨by decide, rfl, rfl⟩

/-- C8 amended: the Survey, Question and Option resolutions are total
functions into result lists (they cannot error by construction); the
Response resolution errors exactly when the actor is authenticated and a
survey_id query parameter names no stored survey, and otherwise narrows:
anonymous actors and non-owning actors get an empty set, never an
error. -/
theorem response_visibility_narrowing (store : Store) (A : Actor) (sid : Option Nat) :
    (ResponseViewSet.get_queryset store A sid = .error () ↔
      A.is_authenticated = true ∧ ∃ x, sid = some x ∧ ∀ s ∈ store.surveys, s.id ≠ x) ∧
    (A.is_authenticated = false → ResponseViewSet.get_queryset store A sid = .ok []) ∧
    (∀ x survey, sid = some x → store.surveys.find? (fun s => s.id = x) = some survey →
      A.uid ≠ some survey.creator → A.is_superuser = false →
      ResponseViewSet.get_queryset store A sid = .ok []) := by
  refine ⟨?_, ?_, ?_⟩
  · cases hA : A.is_authenticated with
    | false => simp [ResponseViewSet.get_queryset, hA]
    | true =>
      cases sid with
      | none =>
        simp only [ResponseViewSet.get_queryset, hA]
        constructor
        · intro h
          by_cases hsu : A.is_superuser = true <;> simp [hsu] at h
        · rintro ⟨-, x, hx, -⟩
          exact absurd hx (by simp)
      | some x =>
        cases hfind : store.surveys.find? (fun s => s.id = x) with
        | none =>
          simp only [ResponseViewSet.get_queryset, hA, hfind]
          simp only [Bool.not_true, Bool.false_eq_true, if_false, ite_true, true_and]
          constructor
          · intro _
            exact ⟨x, rfl, by simpa using List.find?_eq_none.mp hfind⟩
          · intro _
            rfl
        | some sv =>
          have hmem := List.mem_of_find?_eq_some hfind
          have hid : sv.id = x := by simpa using List.find?_some hfind
          simp only [ResponseViewSet.get_queryset, hA, hfind]
          constructor
          · intro h
            exfalso
            rcases ite_eq_iff.mp h with ⟨-, h2⟩ | ⟨-, h2⟩
            · simp at h2
            · rcases ite_eq_iff.mp h2 with ⟨-, h3⟩ | ⟨-, h3⟩ <;> simp at h3
          · rintro ⟨-, x2, hx2, habs⟩
            obtain rfl : x2 = x := by simpa using hx2.symm
            exact absurd hid (habs sv hmem)
  · intro hA
    simp [ResponseViewSet.get_queryset, hA]
  · intro x survey hx hfind huid hsu
    subst hx
    cases hA : A.is_authenticated with
    | false => simp [ResponseViewSet.get_queryset, hA]
    | true => simp [ResponseViewSet.get_queryset, hA, hfind, huid, hsu]

/-- Closed instance of `response_visibility_narrowing`: user 30 owns
neither survey, asks for survey 1's responses, and gets the empty set
rather than an error. -/
theorem response_visibility_narrowing_witness :
    ResponseViewSet.get_queryset exStore (.user 30 false) (some 1) = .ok [] :=
  (response_visibility_narrowing exStore (.user 30 false) (some 1)).2.2 1 exSurvey1 rfl (by rfl)
    (by decide) rfl

/-- C9: deleting a survey cascades: afterwards no survey row with that id,
no question of that survey, no option of such a question, no response to
that survey, and no answer linked to such a response or question remains;
surviving answers hold no selection of a deleted option.  All references
to the deleted survey, direct or transitive, are gone. -/
theorem cascade_delete (store : Store) (sid : Nat) :
    (∀ s ∈ (deleteSurvey store sid).surveys, s.id ≠ sid) ∧
    (∀ q ∈ (deleteSurvey store sid).questions, q.survey ≠ sid) ∧
    (∀ o ∈ (deleteSurvey store sid).options,
      ∀ q ∈ store.questions, q.id = o.question → q.survey ≠ sid) ∧
    (∀ r ∈ (deleteSurvey store sid).responses, r.survey ≠ sid) ∧
    (∀ a ∈ (deleteSurvey store sid).answers,
      (∀ r ∈ store.responses, r.id = a.response → r.survey ≠ sid) ∧
      (∀ q ∈ store.questions, q.id = a.question → q.survey ≠ sid) ∧
      (∀ oid ∈ a.selected_options, ∀ o ∈ store.options, o.id = oid →
        ∀ q ∈ store.questions, q.id = o.question → q.survey ≠ sid)) := by
  refine ⟨?_, ?_, ?_, ?_, ?_⟩
  · intro s hs
    simpa using (List.mem_filter.mp hs).2
  · intro q hq
    simpa using (List.mem_filter.mp hq).2
  · intro o ho q hq hqo hqs
    have h2 := (List.mem_filter.mp ho).2
    simp only [decide_eq_true_eq] at h2
    exact h2 (List.mem_map.mpr ⟨q, List.mem_filter.mpr ⟨hq, by simp [hqs]⟩, hqo⟩)
  · intro r hr
    simpa using (List.mem_filter.mp hr).2
  · intro a ha
    simp only [deleteSurvey] at ha
    obtain ⟨a0, ha0, rfl⟩ := List.mem_map.mp ha
    have hpred := (List.mem_filter.mp ha0).2
    simp only [Bool.and_eq_true, decide_eq_true_eq] at hpred
    refine ⟨?_, ?_, ?_⟩
    · intro r hr hrid hrs
      exact hpred.1 (List.mem_map.mpr ⟨r, List.mem_filter.mpr ⟨hr, by simp [hrs]⟩, hrid⟩)
    · intro q hq hqid hqs
      exact hpred.2 (List.mem_map.mpr ⟨q, List.mem_filter.mpr ⟨hq, by simp [hqs]⟩, hqid⟩)
    · intro oid hoid o ho hoi q hq hqo hqs
      have h3 := (List.mem_filter.mp hoid).2
      simp only [decide_eq_true_eq] at h3
      refine h3 (List.mem_map.mpr ⟨o, List.mem_filter.mpr ⟨ho, ?_⟩, hoi⟩)
      simp only [decide_eq_true_eq]
      exact List.mem_map.mpr ⟨q, List.mem_filter.mpr ⟨hq, by simp [hqs]⟩, hqo⟩

/-- Closed instance of `cascade_delete`: the surviving survey after
deleting survey 1 is not survey 1. -/
theorem cascade_delete_witness :
    exSurvey2.id ≠ 1 ∧ exSurvey2 ∈ (deleteSurvey exStore 1).surveys ∧
    (deleteSurvey exStore 1).questions = [] ∧ (deleteSurvey exStore 1).answers = [] :=
  ⟨(cascade_delete exStore 1).1 exSurvey2 (by decide), by decide, by decide, by decide⟩

/-- C10: survey creation by an authenticated actor stamps that actor as
the creator, and the client-supplied creator field (read-only in the
serializer) has no influence whatsoever on the outcome. -/
theorem creator_stamped (store : Store) (i : Nat) (su : Bool) (p : SurveyPayload) :
    (∀ sv, (SurveySerializer.create store (.user i su) p).2 = .created sv → sv.creator = i) ∧
    (∀ c1 c2 : Option Nat,
      SurveySerializer.create store (.user i su) { p with creator := c1 } =
      SurveySerializer.create store (.user i su) { p with creator := c2 }) := by
  constructor
  · intro sv h
    by_cases ht : p.title.length ≤ 255
    · simp only [SurveySerializer.create, ht, ite_true, SurveyCreateResult.created.injEq] at h
      rw [← h]
    · simp [SurveySerializer.create, ht] at h
  · intro c1 c2
    rfl

/-- Closed instance of `creator_stamped`: user 33 creates a survey while
the payload names user 7 as creator; the stored creator is 33. -/
theorem creator_stamped_witness :
    ({ id := 100, title := "new", description := none, creator := 33, created_at := 50,
       is_active := true } : Survey).creator = 33 :=
  (creator_stamped exStore 33 false
      { title := "new", description := none, creator := some 7, is_active := none }).1
    { id := 100, title := "new", description := none, creator := 33, created_at := 50,
      is_active := true } (by rfl)

end SurveyApp
